import Mathlib

/-!
Shallow embedding of `app.py`, the grid-scan-and-aggregate business scraper.

Modelling conventions.
Real arithmetic of the source (Python floats) is modelled by `ℚ`; the
accumulation `lat += step` is exact here, and `round(x, 4)` is modelled by
nearest-integer rounding at four decimal digits (`round4`).  JSON values
decoded by `response.json()` are the inductive `Json`; Python `None` is
`Json.null`.  The three kinds of outbound calls the worker makes
(Nominatim resolve, directory-API fetch, SMTP send) are oracles collected
in an `Env`; each gives either the decoded response or the exception the
call raised.  A Python exception is an `Except String` error; an uncaught
exception escaping the worker is the `Option String` crash component
threaded through the loops of `run_scrape`.  The two `while` loops of
`generate_grid` are modelled with an explicit iteration budget
(`gridAxisFuel`); the budget `axisFuel` is proved sufficient for every
positive step, which is exactly the termination statement for the source
loop.
-/

namespace ScrapeLeads

/-- JSON values as produced by `response.json()`; Python `None` is `null`. -/
inductive Json where
  | null
  | bool (b : Bool)
  | num (q : ℚ)
  | str (s : String)
  | arr (elems : List Json)
  | obj (fields : List (String × Json))

/-- Python iteration `for x in v` over a JSON value: lists yield their
elements, strings their one-character substrings, dicts their keys; any
other value raises `TypeError`. -/
def pyIter : Json → Except String (List Json)
  | .arr xs => .ok xs
  | .str s => .ok (s.toList.map (fun c => Json.str (String.mk [c])))
  | .obj fields => .ok (fields.map (fun f => Json.str f.1))
  | _ => .error "TypeError: not iterable"

/-- Python `d.get(k, default)` on a JSON object field list (first binding
wins; dict keys are unique). -/
def dictGetD (fields : List (String × Json)) (k : String) (d : Json) : Json :=
  match fields.lookup k with
  | some v => v
  | none => d

/-- Python `d.get(k)`: the field value, or `null` (Python `None`) when the
key is absent. -/
def jsonGet (fields : List (String × Json)) (k : String) : Json :=
  dictGetD fields k Json.null

/-- Rounding at four decimal digits, modelling `round(x, 4)`. -/
def round4 (x : ℚ) : ℚ := (round (x * 10000) : ℚ) / 10000

/-- Bounding box as built by `get_state_bbox`. -/
structure BBox where
  min_lat : ℚ
  max_lat : ℚ
  min_lon : ℚ
  max_lon : ℚ

/-- Resolution step `get_state_bbox`, applied to the outcome of the
Nominatim call (`requests.get` followed by `response.json()`).  Each match
of the decoded response is abstracted to its `boundingbox` entry, already
decoded to numbers (the `float(...)` of the four strings).  An empty match
list gives `None`; a `boundingbox` with fewer than four entries raises
`IndexError`.  No ordering validation is performed on the four values. -/
def get_state_bbox (resp : Except String (List (List ℚ))) : Except String (Option BBox) :=
  match resp with
  | .error e => .error e
  | .ok [] => .ok none
  | .ok (bbox :: _) =>
    match bbox with
    | b0 :: b1 :: b2 :: b3 :: _ => .ok (some ⟨b0, b1, b2, b3⟩)
    | _ => .error "IndexError: list index out of range"

/-- One `while x <= hi` sweep of `generate_grid` (`yield x; x += step`),
with an explicit iteration budget. -/
def gridAxisFuel (step : ℚ) : Nat → ℚ → ℚ → List ℚ
  | 0, _, _ => []
  | n + 1, lo, hi => if lo ≤ hi then lo :: gridAxisFuel step n (lo + step) hi else []

/-- Iteration budget for one sweep; proved sufficient whenever `0 < step`. -/
def axisFuel (lo hi step : ℚ) : Nat := (Int.floor ((hi - lo) / step)).toNat + 1

/-- All values taken by one loop variable of `generate_grid`. -/
def gridAxis (lo hi step : ℚ) : List ℚ := gridAxisFuel step (axisFuel lo hi step) lo hi

/-- Grid generation `generate_grid(bbox, step)`: a nested sweep appending
the 4-digit-rounded point for each latitude row and longitude column. -/
def generate_grid (bbox : BBox) (step : ℚ) : List (ℚ × ℚ) :=
  (gridAxis bbox.min_lat bbox.max_lat step).flatMap
    (fun lat => (gridAxis bbox.min_lon bbox.max_lon step).map
      (fun lon => (round4 lat, round4 lon)))

/-- Outcome of one `requests.get` call: either the request itself raised
(network failure, timeout), or an HTTP response arrived carrying a status
code and a body that either decodes as JSON or does not. -/
inductive HttpResult where
  | netExn (msg : String)
  | resp (status : Nat) (body : Option Json)

/-- Fetch step `fetch_businesses`: one directory-API call followed by
`response.json()`.  The `requests` library does not raise on a non-success
status and the source never consults `response.status_code`, so any
response whose body decodes as JSON is returned as a success. -/
def fetch_businesses (r : HttpResult) : Except String Json :=
  match r with
  | .netExn m => .error m
  | .resp _ none => .error "JSONDecodeError"
  | .resp _ (some j) => .ok j

/-- One row appended by the inner `for biz in ...` loop of `run_scrape`. -/
structure Row where
  state : String
  scan_lat : ℚ
  scan_lon : ℚ
  business_name : Json
  category : Json
  address : Json
  phone : Json
  business_lat : Json
  business_lon : Json

/-- Row built from one business entry; a non-dict entry raises
(`.get` on a value without that attribute). -/
def bizRow (state : String) (p : ℚ × ℚ) (biz : Json) : Except String Row :=
  match biz with
  | .obj fields =>
    .ok { state := state, scan_lat := p.1, scan_lon := p.2,
          business_name := jsonGet fields "name",
          category := jsonGet fields "category",
          address := jsonGet fields "address",
          phone := jsonGet fields "phone",
          business_lat := jsonGet fields "lat",
          business_lon := jsonGet fields "long" }
  | _ => .error "AttributeError: get"

/-- Loop `for biz in ...: rows.append(...)`.  Rows appended before an
exception are kept (the shared `rows` list is mutated in place), so the
result is the rows this point appended together with the exception that
escaped the loop, if any. -/
def bizLoop (state : String) (p : ℚ × ℚ) : List Json → List Row × Option String
  | [] => ([], none)
  | b :: bs =>
    match bizRow state p b with
    | .error m => ([], some m)
    | .ok r =>
      let rest := bizLoop state p bs
      (r :: rest.1, rest.2)

/-- Processing of one decoded response inside the `try` block of
`run_scrape`: `data.get("data", [])` is iterated, appending one row per
entry; a non-dict `data` raises on `.get`. -/
def processPoint (state : String) (p : ℚ × ℚ) (data : Json) : List Row × Option String :=
  match data with
  | .obj fields =>
    match pyIter (dictGetD fields "data" (Json.arr [])) with
    | .error m => ([], some m)
    | .ok elems => bizLoop state p elems
  | _ => ([], some "AttributeError: get")

/-- Oracles for the outbound calls of the worker.  `resolve` gives the
decoded Nominatim response (or the exception raised) for a state name;
`fetch` gives the raw HTTP outcome of the directory-API call at a grid
point; `email` gives the outcome of `send_email` (SMTP login and send). -/
structure Env where
  resolve : String → Except String (List (List ℚ))
  fetch : String → ℚ × ℚ → HttpResult
  email : String → Except String Unit

/-- Body of the `try` block for one grid point: fetch plus parse; the
result is the rows appended and the exception caught by `except`, if any. -/
def scanPoint (env : Env) (state : String) (p : ℚ × ℚ) : List Row × Option String :=
  match fetch_businesses (env.fetch state p) with
  | .error m => ([], some m)
  | .ok data => processPoint state p data

/-- Observable events of one worker run.  `pointError` is the
`print("Error:", e)` diagnostic of the `except` branch; `sleep` is the
`time.sleep(0.4)` pacing pause; `skipNoBbox` is the
`Could not fetch bounding box` diagnostic; `noData` the
`No data found` diagnostic. -/
inductive Event where
  | resolveCall (state : String)
  | skipNoBbox (state : String)
  | fetchCall (state : String) (p : ℚ × ℚ)
  | pointError (state : String) (msg : String)
  | sleep
  | emailSent (state : String)
  | noData (state : String)

/-- Events of one iteration of the grid-point loop: the fetch, the error
diagnostic when the `except` branch ran, then the unconditional pause. -/
def pointEvents (env : Env) (state : String) (p : ℚ × ℚ) : List Event :=
  Event.fetchCall state p ::
    match (scanPoint env state p).2 with
    | some m => [Event.pointError state m, Event.sleep]
    | none => [Event.sleep]

/-- Loop `for i, (lat, lon) in enumerate(grid_points)`, threading the
shared `rows` accumulator through the points. -/
def pointLoop (env : Env) (state : String) : List (ℚ × ℚ) → List Row → List Row × List Event
  | [], rows => (rows, [])
  | p :: ps, rows =>
    let here := scanPoint env state p
    let rest := pointLoop env state ps (rows ++ here.1)
    (rest.1, pointEvents env state p ++ rest.2)

/-- Configured grid step `GRID_STEP = 0.3`. -/
def GRID_STEP : ℚ := 3 / 10

/-- Configured region list. -/
def STATES : List String := ["Tamil Nadu", "Karnataka"]

/-- One iteration of the outer state loop of `run_scrape`: resolve, grid,
point loop, report.  The second component is `some e` when an exception
escaped this iteration: neither `get_state_bbox` nor `send_email` is
inside a `try`, so an exception from either kills the worker. -/
def scanState (env : Env) (state : String) : List Event × Option String :=
  match get_state_bbox (env.resolve state) with
  | .error e => ([Event.resolveCall state], some e)
  | .ok none => ([Event.resolveCall state, Event.skipNoBbox state], none)
  | .ok (some bbox) =>
    let res := pointLoop env state (generate_grid bbox GRID_STEP) []
    if res.1.isEmpty then
      (Event.resolveCall state :: res.2 ++ [Event.noData state], none)
    else
      match env.email state with
      | .error e => (Event.resolveCall state :: res.2, some e)
      | .ok _ => (Event.resolveCall state :: res.2 ++ [Event.emailSent state], none)

/-- Worker `run_scrape` over a region list (the source iterates the
configured `STATES`): states are processed sequentially, and the first
uncaught exception terminates the worker thread. -/
def run_scrape (env : Env) : List String → List Event × Option String
  | [] => ([], none)
  | s :: ss =>
    let res := scanState env s
    match res.2 with
    | some e => (res.1, some e)
    | none =>
      let rest := run_scrape env ss
      (res.1 ++ rest.1, rest.2)

/-- Truth value of `Except.ok`. -/
def exceptOk {α : Type} : Except String α → Bool
  | .ok _ => true
  | .error _ => false

/-- The fetch at this point raises, i.e. `fetch_businesses` itself produced
the exception caught by the `except` branch. -/
def fetchFails (env : Env) (state : String) (p : ℚ × ℚ) : Bool :=
  !(exceptOk (fetch_businesses (env.fetch state p)))

/-- Closed-form point count of one grid-axis sweep. -/
def axisCount (lo hi step : ℚ) : Nat :=
  if lo ≤ hi then (Int.floor ((hi - lo) / step)).toNat + 1 else 0

/-- Row-major adjacency of two output points: same latitude with strictly
increasing longitude, or a strictly larger latitude with the longitude
restarted at `lon0`. -/
def rowMajorRel (lon0 : ℚ) (p q : ℚ × ℚ) : Prop :=
  (p.1 = q.1 ∧ p.2 < q.2) ∨ (p.1 < q.1 ∧ q.2 = lon0)

instance rowMajorRel.instDecidable (lon0 : ℚ) : DecidableRel (rowMajorRel lon0) := fun p q => by
  unfold rowMajorRel
  infer_instance

/-- Recognizer for the pacing-pause event. -/
def isSleep : Event → Bool
  | .sleep => true
  | _ => false

/-- Recognizer for the per-point error diagnostic event. -/
def isPointError : Event → Bool
  | .pointError _ _ => true
  | _ => false

/-- Environment in which every resolver call raises a timeout. -/
def envResolveDown : Env where
  resolve := fun _ => Except.error "ReadTimeout"
  fetch := fun _ _ => HttpResult.netExn "ConnectionError"
  email := fun _ => Except.ok ()

/-- Environment in which resolution succeeds with a degenerate box at the
origin, every fetch returns one business entry, and every delivery attempt
raises an authentication error. -/
def envMailDown : Env where
  resolve := fun _ => Except.ok [[0, 0, 0, 0]]
  fetch := fun _ _ => HttpResult.resp 200 (some (Json.obj [("data", Json.arr [Json.obj []])]))
  email := fun _ => Except.error "SMTPAuthenticationError"

/-- Environment in which resolution succeeds with a degenerate box at the
origin, every fetch raises a network error, and delivery succeeds. -/
def envFetchDown : Env where
  resolve := fun _ => Except.ok [[0, 0, 0, 0]]
  fetch := fun _ _ => HttpResult.netExn "ConnectionError"
  email := fun _ => Except.ok ()

/-- Environment in which the resolver returns an inverted bounding box
(`min_lat > max_lat`), passed through unvalidated. -/
def envInverted : Env where
  resolve := fun _ => Except.ok [[1, 0, 0, 0]]
  fetch := fun _ _ => HttpResult.netExn "ConnectionError"
  email := fun _ => Except.ok ()

/-! Grid-axis lemmas: the iteration budget is sufficient, so `gridAxis`
satisfies the defining equations of the source `while` loop, and has the
closed form of an arithmetic progression. -/

theorem gridAxisFuel_stop {step lo hi : ℚ} (h : ¬ lo ≤ hi) (n : Nat) :
    gridAxisFuel step n lo hi = [] := by
  cases n with
  | zero => rfl
  | succ n => simp [gridAxisFuel, h]

theorem gridAxis_nil {step lo hi : ℚ} (h : ¬ lo ≤ hi) : gridAxis lo hi step = [] :=
  gridAxisFuel_stop h _

theorem floor_step_sub {lo hi step : ℚ} (hstep : 0 < step) :
    Int.floor ((hi - (lo + step)) / step) = Int.floor ((hi - lo) / step) - 1 := by
  have hstep0 : step ≠ 0 := ne_of_gt hstep
  have key : (hi - (lo + step)) / step = (hi - lo) / step - 1 := by
    field_simp
    ring
  rw [key, Int.floor_sub_one]

theorem floor_quot_one_le {lo hi step : ℚ} (hstep : 0 < step) (h2 : lo + step ≤ hi) :
    1 ≤ Int.floor ((hi - lo) / step) := by
  have hd1 : (1 : ℚ) ≤ (hi - lo) / step := (one_le_div hstep).2 (by linarith)
  exact Int.le_floor.2 (by exact_mod_cast hd1)

theorem floor_quot_eq_zero {lo hi step : ℚ} (hstep : 0 < step) (hle : lo ≤ hi)
    (h2 : ¬ lo + step ≤ hi) : Int.floor ((hi - lo) / step) = 0 := by
  have hd : (0 : ℚ) ≤ (hi - lo) / step := div_nonneg (by linarith) hstep.le
  have hlt : (hi - lo) / step < 1 := (div_lt_one hstep).2 (by linarith)
  exact Int.floor_eq_zero_iff.2 ⟨hd, hlt⟩

theorem gridAxis_cons {lo hi step : ℚ} (hstep : 0 < step) (hle : lo ≤ hi) :
    gridAxis lo hi step = lo :: gridAxis (lo + step) hi step := by
  unfold gridAxis axisFuel
  rw [gridAxisFuel, if_pos hle]
  congr 1
  by_cases h2 : lo + step ≤ hi
  · have h1 : 1 ≤ Int.floor ((hi - lo) / step) := floor_quot_one_le hstep h2
    rw [floor_step_sub hstep,
      show (Int.floor ((hi - lo) / step) - 1).toNat + 1 = (Int.floor ((hi - lo) / step)).toNat from by omega]
  · rw [gridAxisFuel_stop h2, gridAxisFuel_stop h2]

theorem axisCount_of_le {lo hi step : ℚ} (hle : lo ≤ hi) :
    axisCount lo hi step = (Int.floor ((hi - lo) / step)).toNat + 1 := if_pos hle

theorem axisCount_of_not_le {lo hi step : ℚ} (hle : ¬ lo ≤ hi) :
    axisCount lo hi step = 0 := if_neg hle

theorem axisCount_step {lo hi step : ℚ} (hstep : 0 < step) (hle : lo ≤ hi) :
    axisCount lo hi step = axisCount (lo + step) hi step + 1 := by
  by_cases h2 : lo + step ≤ hi
  · have h1 : 1 ≤ Int.floor ((hi - lo) / step) := floor_quot_one_le hstep h2
    rw [axisCount_of_le hle, axisCount_of_le h2, floor_step_sub hstep]
    omega
  · rw [axisCount_of_le hle, axisCount_of_not_le h2, floor_quot_eq_zero hstep hle h2]
    rfl

theorem axisCount_pos {lo hi step : ℚ} (hle : lo ≤ hi) :
    1 ≤ axisCount lo hi step := by
  rw [axisCount_of_le hle]
  omega

theorem gridAxis_eq_aux {hi step : ℚ} (hstep : 0 < step) :
    ∀ (n : Nat) (lo : ℚ), axisCount lo hi step = n →
      gridAxis lo hi step = (List.range n).map (fun i : Nat => lo + (i : ℚ) * step) := by
  intro n
  induction n with
  | zero =>
    intro lo h
    have hle : ¬ lo ≤ hi := by
      intro hle
      have := @axisCount_pos lo hi step hle
      omega
    simp [gridAxis_nil hle]
  | succ n ih =>
    intro lo h
    have hle : lo ≤ hi := by
      by_contra hle
      rw [axisCount_of_not_le hle] at h
      omega
    have hnext : axisCount (lo + step) hi step = n := by
      have := axisCount_step hstep hle
      omega
    rw [gridAxis_cons hstep hle, ih (lo + step) hnext, List.range_succ_eq_map,
      List.map_cons, List.map_map]
    congr 1
    · simp
    · have : ((fun i : Nat => lo + (i : ℚ) * step) ∘ Nat.succ) = fun i : Nat => (lo + step) + (i : ℚ) * step := by
        funext i
        simp [Function.comp, Nat.cast_succ]
        ring
      rw [this]

theorem gridAxis_eq {lo hi step : ℚ} (hstep : 0 < step) :
    gridAxis lo hi step = (List.range (axisCount lo hi step)).map (fun i : Nat => lo + (i : ℚ) * step) :=
  gridAxis_eq_aux hstep _ lo rfl

theorem gridAxis_length {lo hi step : ℚ} (hstep : 0 < step) :
    (gridAxis lo hi step).length = axisCount lo hi step := by
  rw [gridAxis_eq hstep]
  simp

theorem mem_gridAxis_bounds {lo hi step x : ℚ} (hstep : 0 < step)
    (hx : x ∈ gridAxis lo hi step) : lo ≤ x ∧ x ≤ hi := by
  rw [gridAxis_eq hstep] at hx
  obtain ⟨i, hi_mem, rfl⟩ := List.mem_map.1 hx
  rw [List.mem_range] at hi_mem
  have hle : lo ≤ hi := by
    by_contra hle
    rw [axisCount_of_not_le hle] at hi_mem
    omega
  constructor
  · have : (0 : ℚ) ≤ (i : ℚ) * step := mul_nonneg (by positivity) hstep.le
    linarith
  · rw [axisCount_of_le hle] at hi_mem
    have hfl0 : 0 ≤ Int.floor ((hi - lo) / step) :=
      Int.floor_nonneg.2 (div_nonneg (by linarith) hstep.le)
    have hii : (i : ℚ) ≤ Int.floor ((hi - lo) / step) := by
      have : (i : ℤ) ≤ Int.floor ((hi - lo) / step) := by omega
      exact_mod_cast this
    have hid : (i : ℚ) ≤ (hi - lo) / step := hii.trans (Int.floor_le _)
    have : (i : ℚ) * step ≤ hi - lo := by
      rw [← le_div_iff₀ hstep]
      exact hid
    linarith

theorem gridAxis_head {lo hi step : ℚ} (hstep : 0 < step) (hle : lo ≤ hi) :
    (gridAxis lo hi step).head? = some lo := by
  rw [gridAxis_cons hstep hle]
  rfl

theorem gridAxis_chain {lo hi step : ℚ} (hstep : 0 < step) :
    List.Chain' (fun a b => b = a + step) (gridAxis lo hi step) := by
  rw [gridAxis_eq hstep]
  rw [List.chain'_map]
  cases h : axisCount lo hi step with
  | zero => simp
  | succ n =>
    rw [show n + 1 = n.succ from rfl, List.chain'_range_succ]
    intro m _
    push_cast
    ring

/-! Coordinator-loop lemmas. -/

theorem pointLoop_rows (env : Env) (state : String) :
    ∀ (ps : List (ℚ × ℚ)) (rows : List Row),
      (pointLoop env state ps rows).1 =
        rows ++ ps.flatMap (fun p => (scanPoint env state p).1) := by
  intro ps
  induction ps with
  | nil => intro rows; simp [pointLoop]
  | cons p ps ih => intro rows; simp [pointLoop, ih]

theorem pointLoop_trace (env : Env) (state : String) :
    ∀ (ps : List (ℚ × ℚ)) (rows : List Row),
      (pointLoop env state ps rows).2 = ps.flatMap (pointEvents env state) := by
  intro ps
  induction ps with
  | nil => intro rows; simp [pointLoop]
  | cons p ps ih => intro rows; simp [pointLoop, ih]

theorem pointEvents_getLast (env : Env) (state : String) (p : ℚ × ℚ) :
    (pointEvents env state p).getLast? = some Event.sleep := by
  unfold pointEvents
  cases (scanPoint env state p).2 <;> rfl

theorem pointEvents_sleep_count (env : Env) (state : String) (p : ℚ × ℚ) :
    (pointEvents env state p).countP isSleep = 1 := by
  unfold pointEvents
  cases (scanPoint env state p).2 <;> rfl

theorem pointEvents_error_count (env : Env) (state : String) (p : ℚ × ℚ) :
    (pointEvents env state p).countP isPointError =
      if (scanPoint env state p).2.isSome then 1 else 0 := by
  unfold pointEvents
  cases (scanPoint env state p).2 <;> rfl

theorem countP_flatMap {α β : Type} (q : β → Bool) (f : α → List β) :
    ∀ l : List α, (l.flatMap f).countP q = (l.map (fun a => (f a).countP q)).sum := by
  intro l
  induction l with
  | nil => rfl
  | cons a l ih => simp [List.countP_append, ih]

theorem sum_map_one {α : Type} (l : List α) : (l.map (fun _ => 1)).sum = l.length := by
  induction l with
  | nil => rfl
  | cons a l ih => simp [ih, Nat.add_comm]

theorem pointLoop_sleep_count (env : Env) (state : String) (ps : List (ℚ × ℚ))
    (rows : List Row) : (pointLoop env state ps rows).2.countP isSleep = ps.length := by
  rw [pointLoop_trace, countP_flatMap]
  have h1 : ps.map (fun p => (pointEvents env state p).countP isSleep) = ps.map (fun _ => 1) := by
    apply List.map_congr_left
    intro p _
    exact pointEvents_sleep_count env state p
  rw [h1, sum_map_one]

theorem pointLoop_error_count (env : Env) (state : String) (ps : List (ℚ × ℚ))
    (rows : List Row) :
    (pointLoop env state ps rows).2.countP isPointError =
      ps.countP (fun p => (scanPoint env state p).2.isSome) := by
  rw [pointLoop_trace, countP_flatMap]
  induction ps with
  | nil => rfl
  | cons p ps ih =>
    rw [List.map_cons, List.sum_cons, ih, List.countP_cons, pointEvents_error_count]
    by_cases h : (scanPoint env state p).2.isSome <;> simp [h, Nat.add_comm]

theorem scanPoint_of_fetchFails (env : Env) (state : String) (p : ℚ × ℚ)
    (h : fetchFails env state p = true) :
    (scanPoint env state p).1 = [] ∧ (scanPoint env state p).2.isSome = true := by
  unfold fetchFails exceptOk at h
  unfold scanPoint
  cases hf : fetch_businesses (env.fetch state p) with
  | error m => simp
  | ok data =>
    rw [hf] at h
    simp at h

theorem flatMap_filter_of_nil {α β : Type} (f : α → List β) (q : α → Bool) :
    ∀ l : List α, (∀ a ∈ l, q a = false → f a = []) →
      l.flatMap f = (l.filter q).flatMap f := by
  intro l
  induction l with
  | nil => intro _; rfl
  | cons a l ih =>
    intro h
    rw [List.flatMap_cons, List.filter_cons]
    cases hq : q a with
    | true =>
      rw [if_pos (by simp), List.flatMap_cons, ih fun b hb => h b (List.mem_cons_of_mem a hb)]
    | false =>
      rw [if_neg (by simp), h a (List.mem_cons_self a l) hq, List.nil_append,
        ih fun b hb => h b (List.mem_cons_of_mem a hb)]

theorem resolveCall_mem_scanState (env : Env) (state : String) :
    Event.resolveCall state ∈ (scanState env state).1 := by
  unfold scanState
  cases h : get_state_bbox (env.resolve state) with
  | error e => simp
  | ok ob =>
    cases ob with
    | none => simp
    | some bbox =>
      dsimp only
      by_cases hres : (pointLoop env state (generate_grid bbox GRID_STEP) []).1.isEmpty
      · simp [hres]
      · cases hm : env.email state <;> simp [hres, hm]

theorem scanState_no_crash (env : Env) (state : String)
    (hres : exceptOk (get_state_bbox (env.resolve state)) = true)
    (hmail : exceptOk (env.email state) = true) :
    (scanState env state).2 = none := by
  unfold scanState
  cases h : get_state_bbox (env.resolve state) with
  | error e =>
    rw [h] at hres
    simp [exceptOk] at hres
  | ok ob =>
    cases ob with
    | none => rfl
    | some bbox =>
      dsimp only
      by_cases hre : (pointLoop env state (generate_grid bbox GRID_STEP) []).1.isEmpty
      · simp [hre]
      · cases hm : env.email state with
        | error e =>
          rw [hm] at hmail
          simp [exceptOk] at hmail
        | ok u => simp [hre, hm]

theorem scanState_report (env : Env) (state : String) (bbox : BBox)
    (hres : get_state_bbox (env.resolve state) = .ok (some bbox))
    (hmail : exceptOk (env.email state) = true) :
    (scanState env state).2 = none ∧
      ((pointLoop env state (generate_grid bbox GRID_STEP) []).1.isEmpty = false →
        Event.emailSent state ∈ (scanState env state).1) := by
  unfold scanState
  rw [hres]
  dsimp only
  by_cases hre : (pointLoop env state (generate_grid bbox GRID_STEP) []).1.isEmpty
  · simp [hre]
  · cases hm : env.email state with
    | error e =>
      rw [hm] at hmail
      simp [exceptOk] at hmail
    | ok u =>
      simp [hre, hm]

theorem run_scrape_total (env : Env) :
    ∀ states : List String,
      (∀ s ∈ states, exceptOk (get_state_bbox (env.resolve s)) = true) →
      (∀ s ∈ states, exceptOk (env.email s) = true) →
      (run_scrape env states).2 = none ∧
        ∀ s ∈ states, Event.resolveCall s ∈ (run_scrape env states).1 := by
  intro states
  induction states with
  | nil => intro _ _; exact ⟨rfl, by simp⟩
  | cons s ss ih =>
    intro hres hmail
    have hs : (scanState env s).2 = none :=
      scanState_no_crash env s (hres s (List.mem_cons_self s ss))
        (hmail s (List.mem_cons_self s ss))
    have hrest := ih (fun t ht => hres t (List.mem_cons_of_mem s ht))
      (fun t ht => hmail t (List.mem_cons_of_mem s ht))
    constructor
    · rw [run_scrape]
      simp only [hs]
      exact hrest.1
    · intro t ht
      rw [run_scrape]
      simp only [hs]
      rcases List.mem_cons.1 ht with rfl | ht2
      · exact List.mem_append_left _ (resolveCall_mem_scanState env t)
      · exact List.mem_append_right _ (hrest.2 t ht2)

/-! Rounding lemmas. -/

theorem round4_mono {x y : ℚ} (h : x ≤ y) : round4 x ≤ round4 y := by
  unfold round4
  have h1 : round (x * 10000) ≤ round (y * 10000) := by
    rw [round_eq, round_eq]
    exact Int.floor_mono (by linarith)
  have h2 : ((round (x * 10000) : ℤ) : ℚ) ≤ ((round (y * 10000) : ℤ) : ℚ) := by
    exact_mod_cast h1
  linarith

theorem round4_lt {x y : ℚ} (h : x + 1 / 10000 ≤ y) : round4 x < round4 y := by
  unfold round4
  have h1 : round (x * 10000) + 1 ≤ round (y * 10000) := by
    have h0 : round (x * 10000 + 1) ≤ round (y * 10000) := by
      rw [round_eq, round_eq]
      exact Int.floor_mono (by linarith)
    rwa [round_add_one] at h0
  have h2 : ((round (x * 10000) : ℤ) : ℚ) + 1 ≤ ((round (y * 10000) : ℤ) : ℚ) := by
    exact_mod_cast h1
  linarith

theorem round4_close (x : ℚ) : |round4 x - x| ≤ 1 / 20000 := by
  unfold round4
  have h := abs_sub_round (x * 10000)
  rw [abs_le] at h ⊢
  obtain ⟨hl, hr⟩ := h
  constructor <;> linarith

theorem round4_exact (x : ℚ) : ∃ k : ℤ, round4 x = (k : ℚ) / 10000 :=
  ⟨round (x * 10000), rfl⟩

/-! Grid-structure lemmas. -/

theorem mem_generate_grid {bbox : BBox} {step : ℚ} {p : ℚ × ℚ}
    (hp : p ∈ generate_grid bbox step) :
    ∃ lat lon, lat ∈ gridAxis bbox.min_lat bbox.max_lat step ∧
      lon ∈ gridAxis bbox.min_lon bbox.max_lon step ∧ p = (round4 lat, round4 lon) := by
  unfold generate_grid at hp
  rw [List.mem_flatMap] at hp
  obtain ⟨lat, hlat, hp2⟩ := hp
  rw [List.mem_map] at hp2
  obtain ⟨lon, hlon, rfl⟩ := hp2
  exact ⟨lat, lon, hlat, hlon, rfl⟩

theorem chain'_flatMap {α β : Type} (R : β → β → Prop) (S : α → α → Prop) (f : α → List β) :
    ∀ l : List α, List.Chain' S l → (∀ a ∈ l, f a ≠ []) → (∀ a ∈ l, List.Chain' R (f a)) →
      (∀ a b, S a b → ∀ x ∈ (f a).getLast?, ∀ y ∈ (f b).head?, R x y) →
      List.Chain' R (l.flatMap f) := by
  intro l
  induction l with
  | nil => intro _ _ _ _; simp
  | cons a l ih =>
    intro hS hne hR hglue
    rw [List.flatMap_cons]
    refine List.chain'_append.2 ⟨hR a (List.mem_cons_self a l), ?_, ?_⟩
    · exact ih (List.Chain'.tail hS) (fun b hb => hne b (List.mem_cons_of_mem a hb))
        (fun b hb => hR b (List.mem_cons_of_mem a hb)) hglue
    · intro x hx y hy
      cases l with
      | nil => simp at hy
      | cons b t =>
        rw [List.flatMap_cons, List.head?_append] at hy
        obtain ⟨c, cs, hcb⟩ := List.exists_cons_of_ne_nil
          (hne b (List.mem_cons_of_mem a (List.mem_cons_self b t)))
        have hSab : S a b := (List.chain'_cons.1 hS).1
        apply hglue a b hSab x hx y
        rw [hcb] at hy ⊢
        simpa using hy

theorem gridAxis_ne_nil {lo hi step : ℚ} (hstep : 0 < step) (hle : lo ≤ hi) :
    gridAxis lo hi step ≠ [] := by
  rw [gridAxis_cons hstep hle]
  simp

theorem generate_grid_chain {bbox : BBox} {step : ℚ} (hstep4 : 1 / 10000 ≤ step)
    (hlon : bbox.min_lon ≤ bbox.max_lon) :
    List.Chain' (rowMajorRel (round4 bbox.min_lon)) (generate_grid bbox step) := by
  have hstep : 0 < step := lt_of_lt_of_le (by norm_num) hstep4
  unfold generate_grid
  apply chain'_flatMap (rowMajorRel (round4 bbox.min_lon)) (fun a b => b = a + step)
  · exact gridAxis_chain hstep
  · intro a _
    simp [gridAxis_ne_nil hstep hlon]
  · intro a _
    rw [List.chain'_map]
    apply List.Chain'.imp ?_ (gridAxis_chain hstep)
    intro x y hxy
    left
    refine ⟨rfl, ?_⟩
    apply round4_lt
    rw [hxy]
    linarith
  · intro a b hab x hx y hy
    rw [List.getLast?_map] at hx
    rw [gridAxis_cons hstep hlon, List.map_cons, List.head?_cons] at hy
    obtain ⟨llon, _, rfl⟩ : ∃ llon, (gridAxis bbox.min_lon bbox.max_lon step).getLast? = some llon ∧
        x = (round4 a, round4 llon) := by
      cases hgl : (gridAxis bbox.min_lon bbox.max_lon step).getLast? with
      | none =>
        rw [hgl] at hx
        simp at hx
      | some llon =>
        rw [hgl] at hx
        exact ⟨llon, rfl, by simpa using hx.symm⟩
    right
    rw [show y = (round4 b, round4 bbox.min_lon) from by simpa using hy.symm]
    refine ⟨?_, rfl⟩
    apply round4_lt
    rw [hab]
    linarith

/-! Termination of the axis sweep: any budget at least `axisFuel` gives the
same list, i.e. the source `while` loop exits by its guard, not by fuel. -/

theorem gridAxisFuel_sufficient {hi step : ℚ} (hstep : 0 < step) :
    ∀ (n : Nat) (lo : ℚ), axisFuel lo hi step ≤ n →
      gridAxisFuel step n lo hi = gridAxis lo hi step := by
  intro n
  induction n with
  | zero =>
    intro lo h
    unfold axisFuel at h
    omega
  | succ n ih =>
    intro lo h
    by_cases hle : lo ≤ hi
    · rw [gridAxisFuel, if_pos hle, gridAxis_cons hstep hle]
      congr 1
      by_cases h2 : lo + step ≤ hi
      · apply ih
        have h1 : 1 ≤ Int.floor ((hi - lo) / step) := floor_quot_one_le hstep h2
        have hfl := @floor_step_sub lo hi step hstep
        unfold axisFuel at h ⊢
        rw [hfl]
        omega
      · rw [gridAxisFuel_stop h2, gridAxis_nil h2]
    · rw [gridAxisFuel, if_neg hle, gridAxis_nil hle]

theorem length_flatMap_const {α β : Type} (f : α → List β) (k : Nat) :
    ∀ l : List α, (∀ a ∈ l, (f a).length = k) → (l.flatMap f).length = l.length * k := by
  intro l
  induction l with
  | nil => intro _; simp
  | cons a l ih =>
    intro h
    rw [List.flatMap_cons, List.length_append, h a (List.mem_cons_self a l),
      ih fun b hb => h b (List.mem_cons_of_mem a hb), List.length_cons, Nat.succ_mul,
      Nat.add_comm]

theorem generate_grid_length {bbox : BBox} {step : ℚ} (hstep : 0 < step) :
    (generate_grid bbox step).length =
      axisCount bbox.min_lat bbox.max_lat step * axisCount bbox.min_lon bbox.max_lon step := by
  unfold generate_grid
  rw [length_flatMap_const _ (axisCount bbox.min_lon bbox.max_lon step) _
    (fun lat _ => by rw [List.length_map, gridAxis_length hstep]), gridAxis_length hstep]

theorem generate_grid_length_pos {bbox : BBox} {step : ℚ} (hstep : 0 < step)
    (hlat : bbox.min_lat ≤ bbox.max_lat) (hlon : bbox.min_lon ≤ bbox.max_lon) :
    1 ≤ (generate_grid bbox step).length := by
  rw [generate_grid_length hstep]
  have h1 := @axisCount_pos bbox.min_lat bbox.max_lat step hlat
  have h2 := @axisCount_pos bbox.min_lon bbox.max_lon step hlon
  exact Nat.one_le_iff_ne_zero.2 (Nat.mul_ne_zero (by omega) (by omega))

theorem gridAxis_degenerate {lo hi step : ℚ} (hstep : 0 < step) (hle : lo ≤ hi)
    (hbig : hi - lo < step) : gridAxis lo hi step = [lo] := by
  rw [gridAxis_cons hstep hle, gridAxis_nil (by intro h2; linarith)]

theorem generate_grid_degenerate {bbox : BBox} {step : ℚ} (hstep : 0 < step)
    (hlat : bbox.min_lat ≤ bbox.max_lat) (hlon : bbox.min_lon ≤ bbox.max_lon)
    (hblat : bbox.max_lat - bbox.min_lat < step) (hblon : bbox.max_lon - bbox.min_lon < step) :
    generate_grid bbox step = [(round4 bbox.min_lat, round4 bbox.min_lon)] := by
  unfold generate_grid
  rw [gridAxis_degenerate hstep hlat hblat, gridAxis_degenerate hstep hlon hblon]
  rfl

theorem flatMap_nil_fun {α β : Type} (l : List α) :
    (l.flatMap fun _ => ([] : List β)) = [] := by
  induction l with
  | nil => rfl
  | cons a l ih => simp [ih]

theorem generate_grid_inverted {bbox : BBox} {step : ℚ}
    (hinv : bbox.max_lat < bbox.min_lat ∨ bbox.max_lon < bbox.min_lon) :
    generate_grid bbox step = [] := by
  unfold generate_grid
  rcases hinv with h | h
  · rw [gridAxis_nil (by intro h2; linarith)]
    rfl
  · rw [@gridAxis_nil step bbox.min_lon bbox.max_lon (by intro h2; linarith)]
    simp

/-! Claim theorems. -/

/-- C9: during a region scan, after processing every grid point — whether
the fetch at that point succeeded or failed — the coordinator pauses for
the pacing interval before moving to the next point; the loop trace is the
concatenation of the per-point event blocks, each block ends with the
`sleep` event regardless of the outcome at that point, and the number of
pauses equals the number of grid points. -/
theorem c9_unconditional_pause (env : Env) (state : String) (ps : List (ℚ × ℚ))
    (rows : List Row) :
    (pointLoop env state ps rows).2 = ps.flatMap (pointEvents env state) ∧
      (∀ p : ℚ × ℚ, (pointEvents env state p).getLast? = some Event.sleep) ∧
      (pointLoop env state ps rows).2.countP isSleep = ps.length :=
  ⟨pointLoop_trace env state ps rows, pointEvents_getLast env state,
    pointLoop_sleep_count env state ps rows⟩

/-- C3 counterexample: a response with a non-success HTTP status (500) whose
body parses as JSON is returned by `fetch_businesses` as a success, and the
coordinator turns it into an empty benign result — no `FetchError` reaches
the caller, contradicting the claim that a non-success status produces a
`FetchError`. -/
theorem c3_counterexample :
    fetch_businesses (HttpResult.resp 500 (some (Json.obj []))) = Except.ok (Json.obj []) ∧
      processPoint "Tamil Nadu" (0, 0) (Json.obj []) = ([], none) :=
  ⟨rfl, rfl⟩

/-- C3 amended: a network failure and a body that does not parse as JSON
each produce a `FetchError` surfaced to the caller; a non-success HTTP
status alone does not — any response whose body parses as JSON is returned
as a success regardless of status, because the fetch layer never checks
the status code. -/
theorem c3_amended (m : String) (status : Nat) (j : Json) :
    fetch_businesses (HttpResult.netExn m) = Except.error m ∧
      fetch_businesses (HttpResult.resp status none) = Except.error "JSONDecodeError" ∧
      fetch_businesses (HttpResult.resp status (some j)) = Except.ok j :=
  ⟨rfl, rfl, rfl⟩

/-- C8 counterexample: a response whose `data` field is present but not a
list (here `null`) is not treated as a benign empty success — iterating it
raises, the point is handled by the `except` branch, and an error
diagnostic is recorded, contradicting the claim that a malformed list
field yields an empty success with no diagnostic. -/
theorem c8_counterexample :
    processPoint "Tamil Nadu" (0, 0) (Json.obj [("data", Json.null)]) =
        ([], some "TypeError: not iterable") ∧
      pointEvents
        { resolve := fun _ => Except.ok [],
          fetch := fun _ _ => HttpResult.resp 200 (some (Json.obj [("data", Json.null)])),
          email := fun _ => Except.ok () } "Tamil Nadu" (0, 0) =
        [Event.fetchCall "Tamil Nadu" (0, 0),
          Event.pointError "Tamil Nadu" "TypeError: not iterable", Event.sleep] :=
  ⟨rfl, rfl⟩

/-- C8 amended: a response whose `data` field is absent, or present as an
empty list, yields an empty record sequence treated as a benign success
(no error); but a present non-list `data` value (such as `null`) raises
inside the loop and is handled as a per-point error. -/
theorem c8_amended (state : String) (p : ℚ × ℚ) (fields : List (String × Json)) :
    (fields.lookup "data" = none → processPoint state p (Json.obj fields) = ([], none)) ∧
      (fields.lookup "data" = some (Json.arr []) →
        processPoint state p (Json.obj fields) = ([], none)) ∧
      (fields.lookup "data" = some Json.null →
        processPoint state p (Json.obj fields) = ([], some "TypeError: not iterable")) := by
  refine ⟨fun h => ?_, fun h => ?_, fun h => ?_⟩ <;>
    simp [processPoint, dictGetD, h, pyIter, bizLoop]

/-- Witness for C8 amended at concrete responses. -/
theorem c8_amended_witness :
    processPoint "Karnataka" (0, 0) (Json.obj [("name", Json.null)]) = ([], none) ∧
      processPoint "Karnataka" (0, 0) (Json.obj [("data", Json.arr [])]) = ([], none) :=
  ⟨(c8_amended "Karnataka" (0, 0) [("name", Json.null)]).1 rfl,
    (c8_amended "Karnataka" (0, 0) [("data", Json.arr [])]).2.1 rfl⟩

/-! Evaluation lemmas for concrete runs. -/

theorem scanState_resolved (env : Env) (state : String) (bbox : BBox)
    (hres : get_state_bbox (env.resolve state) = Except.ok (some bbox)) :
    scanState env state =
      (let res := pointLoop env state (generate_grid bbox GRID_STEP) []
       if res.1.isEmpty then
         (Event.resolveCall state :: res.2 ++ [Event.noData state], none)
       else
         match env.email state with
         | .error e => (Event.resolveCall state :: res.2, some e)
         | .ok _ => (Event.resolveCall state :: res.2 ++ [Event.emailSent state], none)) := by
  unfold scanState
  rw [hres]

theorem generate_grid_origin : generate_grid (BBox.mk 0 0 0 0) GRID_STEP = [(0, 0)] := by
  rw [generate_grid_degenerate (by norm_num [GRID_STEP]) le_rfl le_rfl
    (by norm_num [GRID_STEP]) (by norm_num [GRID_STEP])]
  simp [round4]

/-- C10: for every inverted bounding box (`min_lat > max_lat` or
`min_lon > max_lon`) and every positive step, `generate_grid` returns the
empty sequence without raising; the resolver passes the provider bounds
through with no `min ≤ max` validation, so such a box reaches the
coordinator, where the region completes with no fetch call and no report
(only the `noData` diagnostic). -/
theorem c10_inverted_box (bbox : BBox) (step : ℚ) (_hstep : 0 < step)
    (hinv : bbox.max_lat < bbox.min_lat ∨ bbox.max_lon < bbox.min_lon) :
    generate_grid bbox step = [] ∧
      get_state_bbox
          (Except.ok [[bbox.min_lat, bbox.max_lat, bbox.min_lon, bbox.max_lon]]) =
        Except.ok (some bbox) ∧
      ∀ (env : Env) (state : String),
        env.resolve state =
            Except.ok [[bbox.min_lat, bbox.max_lat, bbox.min_lon, bbox.max_lon]] →
          scanState env state = ([Event.resolveCall state, Event.noData state], none) := by
  refine ⟨generate_grid_inverted hinv, rfl, ?_⟩
  intro env state hres
  rw [scanState_resolved env state bbox (by rw [hres]; rfl), generate_grid_inverted hinv]
  rfl

/-- Witness for C10 at a concrete inverted box. -/
theorem c10_witness : generate_grid (BBox.mk 1 0 0 0) 1 = [] ∧
    scanState envInverted "Tamil Nadu" =
      ([Event.resolveCall "Tamil Nadu", Event.noData "Tamil Nadu"], none) :=
  ⟨(c10_inverted_box (BBox.mk 1 0 0 0) 1 (by norm_num) (Or.inl (by norm_num))).1,
    (c10_inverted_box (BBox.mk 1 0 0 0) 1 (by norm_num)
      (Or.inl (by norm_num))).2.2 envInverted "Tamil Nadu" rfl⟩

/-- C1 counterexample: per-region errors are not all contained.  A resolver
network failure is uncaught: it crashes the worker and the second region is
never reached.  Likewise an SMTP delivery failure is uncaught: after the
first region produces data, the send raises and the second region is never
reached. -/
theorem c1_counterexample :
    (run_scrape envResolveDown ["Tamil Nadu", "Karnataka"]).2 = some "ReadTimeout" ∧
      Event.resolveCall "Karnataka" ∉
        (run_scrape envResolveDown ["Tamil Nadu", "Karnataka"]).1 ∧
      (run_scrape envMailDown ["Tamil Nadu", "Karnataka"]).2 =
        some "SMTPAuthenticationError" ∧
      Event.resolveCall "Karnataka" ∉
        (run_scrape envMailDown ["Tamil Nadu", "Karnataka"]).1 := by
  have h1 : run_scrape envResolveDown ["Tamil Nadu", "Karnataka"] =
      ([Event.resolveCall "Tamil Nadu"], some "ReadTimeout") := rfl
  have hscan : scanState envMailDown "Tamil Nadu" =
      ([Event.resolveCall "Tamil Nadu", Event.fetchCall "Tamil Nadu" (0, 0), Event.sleep],
        some "SMTPAuthenticationError") := by
    rw [scanState_resolved envMailDown "Tamil Nadu" (BBox.mk 0 0 0 0) rfl,
      generate_grid_origin]
    rfl
  have h2 : run_scrape envMailDown ["Tamil Nadu", "Karnataka"] =
      ([Event.resolveCall "Tamil Nadu", Event.fetchCall "Tamil Nadu" (0, 0), Event.sleep],
        some "SMTPAuthenticationError") := by
    rw [run_scrape, hscan]
  rw [h1, h2]
  refine ⟨rfl, by simp, rfl, by simp⟩

/-- C1 amended: only per-point errors and the benign `NotFound` resolution
outcome are contained.  Provided no resolver call raises and no delivery
attempt raises, the worker never crashes and every region of the
configured list is processed; a resolver or delivery exception, by the
counterexample, instead kills the worker and skips all later regions. -/
theorem c1_amended (env : Env) (states : List String)
    (hres : ∀ s ∈ states, exceptOk (get_state_bbox (env.resolve s)) = true)
    (hmail : ∀ s ∈ states, exceptOk (env.email s) = true) :
    (run_scrape env states).2 = none ∧
      ∀ s ∈ states, Event.resolveCall s ∈ (run_scrape env states).1 :=
  run_scrape_total env states hres hmail

/-- Witness for C1 amended: a resolver and mailer that never raise (every
fetch failing, exercising per-point containment) let the worker finish
both regions without a crash. -/
theorem c1_amended_witness :
    (run_scrape envFetchDown ["Tamil Nadu", "Karnataka"]).2 = none ∧
      Event.resolveCall "Karnataka" ∈
        (run_scrape envFetchDown ["Tamil Nadu", "Karnataka"]).1 :=
  ⟨(c1_amended envFetchDown ["Tamil Nadu", "Karnataka"]
      (fun _ _ => rfl) (fun _ _ => rfl)).1,
    (c1_amended envFetchDown ["Tamil Nadu", "Karnataka"]
      (fun _ _ => rfl) (fun _ _ => rfl)).2 "Karnataka" (by simp)⟩

/-- C2: when the fetch fails at an arbitrary subset of the grid points, the
final row set is exactly the concatenation of the rows produced at the
non-failing points, each failing point contributes no rows and has an
error diagnostic in the trace, the diagnostic count equals the number of
erroring points, and the region is not skipped: the scan completes without
crash and, when the row set is non-empty, the report is sent. -/
theorem c2_partial_failure (env : Env) (state : String) (bbox : BBox)
    (hres : get_state_bbox (env.resolve state) = Except.ok (some bbox))
    (hmail : exceptOk (env.email state) = true) :
    ((pointLoop env state (generate_grid bbox GRID_STEP) []).1 =
        ((generate_grid bbox GRID_STEP).filter
          (fun p => !fetchFails env state p)).flatMap
          (fun p => (scanPoint env state p).1)) ∧
      (∀ p ∈ generate_grid bbox GRID_STEP, fetchFails env state p = true →
        (scanPoint env state p).1 = [] ∧
          ∃ m, (scanPoint env state p).2 = some m ∧
            Event.pointError state m ∈
              (pointLoop env state (generate_grid bbox GRID_STEP) []).2) ∧
      ((pointLoop env state (generate_grid bbox GRID_STEP) []).2.countP isPointError =
        (generate_grid bbox GRID_STEP).countP
          (fun p => (scanPoint env state p).2.isSome)) ∧
      (scanState env state).2 = none ∧
      ((pointLoop env state (generate_grid bbox GRID_STEP) []).1.isEmpty = false →
        Event.emailSent state ∈ (scanState env state).1) := by
  refine ⟨?_, ?_, pointLoop_error_count env state _ _,
    (scanState_report env state bbox hres hmail).1,
    (scanState_report env state bbox hres hmail).2⟩
  · rw [pointLoop_rows, List.nil_append]
    exact flatMap_filter_of_nil _ _ _
      (fun p _ hq => (scanPoint_of_fetchFails env state p (by simpa using hq)).1)
  · intro p hp hf
    obtain ⟨h1, h2⟩ := scanPoint_of_fetchFails env state p hf
    refine ⟨h1, ?_⟩
    obtain ⟨m, hm⟩ := Option.isSome_iff_exists.1 h2
    refine ⟨m, hm, ?_⟩
    rw [pointLoop_trace]
    refine List.mem_flatMap.2 ⟨p, hp, ?_⟩
    simp [pointEvents, hm]

/-- Witness for C2: all fetches fail, the region still completes without a
crash and with one diagnostic per grid point. -/
theorem c2_witness :
    (scanState envFetchDown "Tamil Nadu").2 = none ∧
      ((pointLoop envFetchDown "Tamil Nadu"
          (generate_grid (BBox.mk 0 0 0 0) GRID_STEP) []).2.countP isPointError =
        (generate_grid (BBox.mk 0 0 0 0) GRID_STEP).countP
          (fun p => (scanPoint envFetchDown "Tamil Nadu" p).2.isSome)) :=
  ⟨(c2_partial_failure envFetchDown "Tamil Nadu" (BBox.mk 0 0 0 0) rfl rfl).2.2.2.1,
    (c2_partial_failure envFetchDown "Tamil Nadu" (BBox.mk 0 0 0 0) rfl rfl).2.2.1⟩

/-- C4: for every valid bounding box and every positive step the grid
generator terminates — any iteration budget at least the computed bound
`axisFuel` yields the same list for each axis sweep, i.e. the source
`while` loop exits by its guard — and the output is a finite sequence
whose length is the product of the two closed-form axis counts. -/
theorem c4_termination (bbox : BBox) (step : ℚ) (hstep : 0 < step)
    (_hlat : bbox.min_lat ≤ bbox.max_lat) (_hlon : bbox.min_lon ≤ bbox.max_lon) :
    (∀ n, axisFuel bbox.min_lat bbox.max_lat step ≤ n →
      gridAxisFuel step n bbox.min_lat bbox.max_lat =
        gridAxis bbox.min_lat bbox.max_lat step) ∧
      (∀ n, axisFuel bbox.min_lon bbox.max_lon step ≤ n →
        gridAxisFuel step n bbox.min_lon bbox.max_lon =
          gridAxis bbox.min_lon bbox.max_lon step) ∧
      (generate_grid bbox step).length =
        axisCount bbox.min_lat bbox.max_lat step *
          axisCount bbox.min_lon bbox.max_lon step :=
  ⟨fun n h => gridAxisFuel_sufficient hstep n _ h,
    fun n h => gridAxisFuel_sufficient hstep n _ h,
    generate_grid_length hstep⟩

/-- Witness for C4 at a concrete box and step. -/
theorem c4_witness :
    (generate_grid (BBox.mk 0 1 0 1) 1).length = axisCount 0 1 1 * axisCount 0 1 1 :=
  (c4_termination (BBox.mk 0 1 0 1) 1 (by norm_num) (by norm_num) (by norm_num)).2.2

/-- C5 counterexample: for the box `[0,0] × [0,1]` and step `1/2` — a step
exceeding the box extent in the latitude dimension — the output is a full
row of three points, not the degenerate single-point sequence the claim
demands for a step exceeding the extent in either dimension. -/
theorem c5_counterexample :
    (BBox.mk 0 0 0 1).max_lat - (BBox.mk 0 0 0 1).min_lat < 1 / 2 ∧
      generate_grid (BBox.mk 0 0 0 1) (1 / 2) = [(0, 0), (0, 1 / 2), (0, 1)] ∧
      generate_grid (BBox.mk 0 0 0 1) (1 / 2) ≠
        [(round4 (BBox.mk 0 0 0 1).min_lat, round4 (BBox.mk 0 0 0 1).min_lon)] := by
  have hg : generate_grid (BBox.mk 0 0 0 1) (1 / 2) = [(0, 0), (0, 1 / 2), (0, 1)] := by
    rw [generate_grid]
    rw [show (BBox.mk 0 0 0 1).min_lat = 0 from rfl]
    rw [gridAxis_cons (by norm_num) (by norm_num), gridAxis_nil (by norm_num)]
    rw [show (BBox.mk 0 0 0 1).min_lon = 0 from rfl]
    rw [gridAxis_cons (by norm_num) (by norm_num), gridAxis_cons (by norm_num) (by norm_num),
      gridAxis_cons (by norm_num) (by norm_num), gridAxis_nil (by norm_num)]
    simp [round4, round_eq]
    norm_num
  refine ⟨by norm_num, hg, ?_⟩
  rw [hg]
  simp

/-- C5 amended: for every valid bounding box and positive step the grid
generator yields at least one point, and when the step exceeds the box
extent in both dimensions the output is exactly the degenerate
single-point sequence at the rounded minimum corner. -/
theorem c5_amended (bbox : BBox) (step : ℚ) (hstep : 0 < step)
    (hlat : bbox.min_lat ≤ bbox.max_lat) (hlon : bbox.min_lon ≤ bbox.max_lon) :
    1 ≤ (generate_grid bbox step).length ∧
      (bbox.max_lat - bbox.min_lat < step → bbox.max_lon - bbox.min_lon < step →
        generate_grid bbox step = [(round4 bbox.min_lat, round4 bbox.min_lon)]) :=
  ⟨generate_grid_length_pos hstep hlat hlon,
    fun hblat hblon => generate_grid_degenerate hstep hlat hlon hblat hblon⟩

/-- Witness for C5 amended at a degenerate box. -/
theorem c5_witness :
    1 ≤ (generate_grid (BBox.mk 0 0 0 0) 1).length ∧
      generate_grid (BBox.mk 0 0 0 0) 1 = [(round4 0, round4 0)] :=
  ⟨(c5_amended (BBox.mk 0 0 0 0) 1 (by norm_num) le_rfl le_rfl).1,
    (c5_amended (BBox.mk 0 0 0 0) 1 (by norm_num) le_rfl le_rfl).2
      (by norm_num) (by norm_num)⟩

/-- C6 counterexample: with the valid box `[0, 2e-5] × [0, 0]` and the
positive step `1e-5`, all three latitudes round to the same 4-decimal
value, so the output is three identical points and consecutive points
neither increase strictly in longitude at equal latitude nor move to a
strictly larger latitude: row-major ordering fails on the rounded
output. -/
theorem c6_counterexample :
    (0 : ℚ) < 1 / 100000 ∧
      (BBox.mk 0 (2 / 100000) 0 0).min_lat ≤ (BBox.mk 0 (2 / 100000) 0 0).max_lat ∧
      (BBox.mk 0 (2 / 100000) 0 0).min_lon ≤ (BBox.mk 0 (2 / 100000) 0 0).max_lon ∧
      generate_grid (BBox.mk 0 (2 / 100000) 0 0) (1 / 100000) = [(0, 0), (0, 0), (0, 0)] ∧
      ¬ List.Chain' (rowMajorRel (BBox.mk 0 (2 / 100000) 0 0).min_lon)
          (generate_grid (BBox.mk 0 (2 / 100000) 0 0) (1 / 100000)) := by
  have hg : generate_grid (BBox.mk 0 (2 / 100000) 0 0) (1 / 100000) =
      [(0, 0), (0, 0), (0, 0)] := by
    rw [generate_grid]
    rw [show (BBox.mk 0 (2 / 100000) 0 0).min_lat = 0 from rfl]
    rw [gridAxis_cons (by norm_num) (by norm_num), gridAxis_cons (by norm_num) (by norm_num),
      gridAxis_cons (by norm_num) (by norm_num), gridAxis_nil (by norm_num)]
    rw [show (BBox.mk 0 (2 / 100000) 0 0).min_lon = 0 from rfl]
    rw [gridAxis_cons (by norm_num) (by norm_num), gridAxis_nil (by norm_num)]
    simp [round4, round_eq]
    norm_num
  refine ⟨by norm_num, by norm_num, by norm_num, hg, ?_⟩
  rw [hg]
  simp [List.chain'_cons, rowMajorRel]

/-- C6 amended: for every valid bounding box, provided the step is at
least the rounding quantum `1/10000`, row-major ordering holds on the
output: consecutive points either share a latitude with strictly
increasing longitude, or start a new strictly larger latitude row at the
rounded minimum longitude. -/
theorem c6_amended (bbox : BBox) (step : ℚ) (hstep4 : 1 / 10000 ≤ step)
    (_hlat : bbox.min_lat ≤ bbox.max_lat) (hlon : bbox.min_lon ≤ bbox.max_lon) :
    List.Chain' (rowMajorRel (round4 bbox.min_lon)) (generate_grid bbox step) :=
  generate_grid_chain hstep4 hlon

/-- Witness for C6 amended at a concrete box and step. -/
theorem c6_witness :
    List.Chain' (rowMajorRel (round4 0)) (generate_grid (BBox.mk 0 1 0 1) 1) :=
  c6_amended (BBox.mk 0 1 0 1) 1 (by norm_num) (by norm_num) (by norm_num)

/-- C7: for every valid bounding box and positive step, every point the
grid generator yields has both coordinates equal to an integer multiple of
`1/10000` (exactly four decimal digits) and lies within the box extended
by the half-quantum rounding tolerance `1/20000` in each dimension. -/
theorem c7_rounded_in_box (bbox : BBox) (step : ℚ) (hstep : 0 < step)
    (_hlat : bbox.min_lat ≤ bbox.max_lat) (_hlon : bbox.min_lon ≤ bbox.max_lon) :
    ∀ p ∈ generate_grid bbox step,
      (∃ k : ℤ, p.1 = (k : ℚ) / 10000) ∧ (∃ k : ℤ, p.2 = (k : ℚ) / 10000) ∧
        bbox.min_lat - 1 / 20000 ≤ p.1 ∧ p.1 ≤ bbox.max_lat + 1 / 20000 ∧
        bbox.min_lon - 1 / 20000 ≤ p.2 ∧ p.2 ≤ bbox.max_lon + 1 / 20000 := by
  intro p hp
  obtain ⟨lat, lon, hlat2, hlon2, rfl⟩ := mem_generate_grid hp
  obtain ⟨hl1, hl2⟩ := mem_gridAxis_bounds hstep hlat2
  obtain ⟨hm1, hm2⟩ := mem_gridAxis_bounds hstep hlon2
  have hc1 := round4_close lat
  have hc2 := round4_close lon
  rw [abs_le] at hc1 hc2
  exact ⟨round4_exact lat, round4_exact lon, by linarith [hc1.1], by linarith [hc1.2],
    by linarith [hc2.1], by linarith [hc2.2]⟩

/-- Witness for C7 at a concrete box, step and output point. -/
theorem c7_witness :
    (∃ k : ℤ, (((0 : ℚ), (0 : ℚ)).1 : ℚ) = (k : ℚ) / 10000) ∧
      ((0 : ℚ), (0 : ℚ)).1 ≤ (BBox.mk 0 1 0 1).max_lat + 1 / 20000 := by
  have hmemlat : (0 : ℚ) ∈ gridAxis 0 1 1 := by
    rw [gridAxis_cons (by norm_num) (by norm_num)]
    exact List.mem_cons_self _ _
  have hmem : ((0 : ℚ), (0 : ℚ)) ∈ generate_grid (BBox.mk 0 1 0 1) 1 := by
    refine List.mem_flatMap.2 ⟨0, hmemlat, List.mem_map.2 ⟨0, hmemlat, ?_⟩⟩
    simp [round4]
  exact ⟨(c7_rounded_in_box (BBox.mk 0 1 0 1) 1 (by norm_num) (by norm_num) (by norm_num)
      (0, 0) hmem).1,
    (c7_rounded_in_box (BBox.mk 0 1 0 1) 1 (by norm_num) (by norm_num) (by norm_num)
      (0, 0) hmem).2.2.2.1⟩

end ScrapeLeads
